import Mathlib

/-!
Shallow embedding of `src/stitch_images.py` (Haze-Removal-via-Dark-Channel-Prior).

The script walks a dataset directory, discovers the `GT`/`hazy` base folders and
the method folders, resolves per-identifier image files by a suffix-and-extension
convention, and renders labelled grids in batches of three identifiers.

The filesystem is modelled by `Fs`: the `os.listdir` listing of the dataset
directory (each entry with its `os.path.isdir` flag), an `os.path.exists`
predicate on candidate file paths, and the `cv2.imread` decoder as an abstract
partial function to pixel data.  All functions of the script become total Lean
functions over this model; the matplotlib figure becomes an explicit grid of
`Cell`s plus the recorded save effects.
-/

/-- A pixel as a channel triple; `cv2.imread` yields BGR channel order. -/
abbrev Pixel := Nat × Nat × Nat

/-- A decoded image: its pixels in raster order. -/
abbrev Img := List Pixel

/-- One entry of `os.listdir(dataset_dir)` together with its `os.path.isdir` flag. -/
structure Entry where
  name : String
  isDir : Bool
deriving DecidableEq, Repr

/-- The filesystem as the script sees it. -/
structure Fs where
  listing : List Entry
  pathExists : String → Bool
  imread : String → Option Img

/-- `os.path.join a b` for a relative second component (the only use in the script). -/
def pathJoin (a b : String) : String := a ++ "/" ++ b

/-- Python's `sorted` on strings: sort by the lexicographic order on code points,
which is exactly Lean's `≤` on `String`. -/
def pySorted (l : List String) : List String :=
  l.mergeSort (fun a b => decide (a ≤ b))

/-- `find_custom_folders` (src/stitch_images.py lines 11-20): collect the listing's
subdirectories whose name ends with `_hazy` or starts with `results_`, skipping the
one literally named `hazy`, then sort. -/
def find_custom_folders (listing : List Entry) : List String :=
  pySorted ((listing.filter (fun e =>
    e.isDir && (e.name.endsWith "_hazy" || e.name.startsWith "results_")
      && e.name != "hazy")).map Entry.name)

/-- The accumulator loop of `find_gt_hazy_folders` (lines 27-33): scan the listing,
remembering a subdirectory literally named `GT` and one literally named `hazy`. -/
def findGtHazyLoop : List Entry → Option String → Option String → Option String × Option String
  | [], gt_folder, hazy_folder => (gt_folder, hazy_folder)
  | e :: rest, gt_folder, hazy_folder =>
    if e.isDir then
      if e.name = "GT" then findGtHazyLoop rest (some e.name) hazy_folder
      else if e.name = "hazy" then findGtHazyLoop rest gt_folder (some e.name)
      else findGtHazyLoop rest gt_folder hazy_folder
    else findGtHazyLoop rest gt_folder hazy_folder

/-- `find_gt_hazy_folders` (lines 22-35). -/
def find_gt_hazy_folders (listing : List Entry) : Option String × Option String :=
  findGtHazyLoop listing none none

/-- Modelled from the spec: `cv2.cvtColor(img, cv2.COLOR_BGR2RGB)` — the OpenCV
call (a library external to the repository) reverses each pixel's channel triple,
normalizing to RGB order. -/
def cvtColor_BGR2RGB (img : Img) : Img :=
  img.map (fun px => (px.2.2, px.2.1, px.1))

/-- `load_image` (lines 37-42): decode with `cv2.imread`, convert BGR to RGB on
success, return `None` when decoding fails. -/
def load_image (imread : String → Option Img) (image_path : String) : Option Img :=
  match imread image_path with
  | some img => some (cvtColor_BGR2RGB img)
  | none => none

/-- The probed extensions in source order (line 46). -/
def extensions : List String := [".png", ".jpg", ".jpeg"]

/-- The suffix chosen for a folder (lines 49-52). -/
def suffixFor (folder_name : String) : String :=
  if folder_name = "GT" then "_GT" else "_hazy"

/-- The extension loop of `find_image_file` (lines 54-62).  Besides the result it
returns the log of found / not-found lines printed for each candidate attempted:
one `(path, true)` line for the candidate found, a `(path, false)` line for each
candidate probed and absent. -/
def findImageLoop (pathExists : String → Bool) (folder_path stem : String) :
    List String → Option String × List (String × Bool)
  | [] => (none, [])
  | ext :: rest =>
    let full_path := pathJoin folder_path (stem ++ ext)
    if pathExists full_path then
      (some full_path, [(full_path, true)])
    else
      let r := findImageLoop pathExists folder_path stem rest
      (r.1, (full_path, false) :: r.2)

/-- `find_image_file` (lines 44-62). -/
def find_image_file (pathExists : String → Bool) (folder_path filename folder_name : String) :
    Option String × List (String × Bool) :=
  findImageLoop pathExists folder_path (filename ++ suffixFor folder_name) extensions

/-- One cell of a rendered grid: an image drawn with `imshow`, or the fixed
placeholder text drawn when the file is missing or fails to decode. -/
inductive Cell where
  | image : Img → Cell
  | placeholder : String → Cell
deriving DecidableEq, Repr

/-- Rendering of one cell (lines 104-122): resolve the path with
`find_image_file`; on success decode with `load_image` and show the image;
on a missing path or a failed decode draw the fixed placeholder text. -/
def renderCell (fs : Fs) (dataset_dir folder filename : String) : Cell :=
  let folder_path := pathJoin dataset_dir folder
  match (find_image_file fs.pathExists folder_path filename folder).1 with
  | some image_path =>
    match load_image fs.imread image_path with
    | some img => Cell.image img
    | none => Cell.placeholder "✗ Image not found"
  | none => Cell.placeholder "✗ Image not found"

/-- One rendered batch: the identifiers of its rows, the figure dimensions, the
cell grid in row-major order, and the save effects of lines 131-137 (`os.makedirs`
target and `plt.savefig` path; both `none` when no save directory is given). -/
structure Batch where
  filenames : List String
  numRows : Nat
  numCols : Nat
  cells : List (List Cell)
  madeDir : Option String
  savedPath : Option String
deriving DecidableEq, Repr

/-- The whole output of one `create_grid` call that got past the folder check. -/
structure GridOutput where
  folders : List String
  columnLabels : List String
  batches : List Batch
deriving DecidableEq, Repr

/-- One iteration of the batch loop of `create_grid` (lines 86-139).
`batch_idx` is the start offset of the batch in the identifier list; the saved
file name uses `batch_idx // 3 + 1` (line 133). -/
def renderBatch (fs : Fs) (dataset_dir : String) (folders : List String)
    (batch_filenames : List String) (batch_idx : Nat) (save_dir : Option String) : Batch :=
  { filenames := batch_filenames
    numRows := batch_filenames.length
    numCols := folders.length
    cells := batch_filenames.map (fun filename =>
      folders.map (fun folder => renderCell fs dataset_dir folder filename))
    madeDir := save_dir
    savedPath := save_dir.map (fun d =>
      pathJoin d ("grid_batch_" ++ toString (batch_idx / 3 + 1) ++ ".png")) }

/-- `create_grid` (lines 64-139).  Returns `none` when the GT or hazy folder is
missing (the script prints an error and returns; the found names can only be the
non-empty literals `GT` and `hazy`, so Python's falsiness test is exactly the
`None` test).  `List.range' 0 ((n + 2) / 3) 3` is Python's `range(0, n, 3)`:
the starts `0, 3, 6, …` below `n`, of which there are `⌈n / 3⌉ = (n + 2) / 3`. -/
def create_grid (fs : Fs) (dataset_dir : String) (filenames : List String)
    (custom_folders : Option (List String)) (save_dir : Option String) : Option GridOutput :=
  match find_gt_hazy_folders fs.listing with
  | (some gt_folder, some hazy_folder) =>
    let custom := custom_folders.getD (find_custom_folders fs.listing)
    let folders := [hazy_folder] ++ custom ++ [gt_folder]
    let column_labels := ["Hazy Input"] ++
      custom.enum.map (fun p => "Method " ++ String.singleton (Char.ofNat (64 + (p.1 + 1)))) ++
      ["Reference (GT)"]
    let batches := (List.range' 0 ((filenames.length + 2) / 3) 3).map
      (fun batch_idx =>
        renderBatch fs dataset_dir folders ((filenames.drop batch_idx).take 3) batch_idx save_dir)
    some { folders := folders, columnLabels := column_labels, batches := batches }
  | _ => none

/-- The grid output produced by `create_grid` when both base folders are present
and the method folders are discovered (the `custom_folders=None` default). -/
def gridOf (fs : Fs) (dataset_dir : String) (filenames : List String)
    (save_dir : Option String) : GridOutput :=
  let custom := find_custom_folders fs.listing
  let folders := ["hazy"] ++ custom ++ ["GT"]
  { folders := folders
    columnLabels := ["Hazy Input"] ++
      custom.enum.map (fun p => "Method " ++ String.singleton (Char.ofNat (64 + (p.1 + 1)))) ++
      ["Reference (GT)"]
    batches := (List.range' 0 ((filenames.length + 2) / 3) 3).map
      (fun batch_idx =>
        renderBatch fs dataset_dir folders ((filenames.drop batch_idx).take 3) batch_idx save_dir) }

/-- The candidate paths probed by `find_image_file`, in probe order. -/
def candidatePaths (folder_path filename folder_name : String) : List String :=
  extensions.map (fun ext => pathJoin folder_path (filename ++ suffixFor folder_name ++ ext))

/-- The found / not-found log lines for a probe of `cands`: every candidate up to
and including the first existing one (all of them when none exists), each paired
with whether it was found. -/
def attemptLog (pathExists : String → Bool) (cands : List String) : List (String × Bool) :=
  (cands.take ((cands.takeWhile (fun p => !pathExists p)).length + 1)).map
    (fun p => (p, pathExists p))

/-! ### Helper lemmas -/

theorem findGtHazyLoop_eq (l : List Entry) (gt_acc hazy_acc : Option String) :
    findGtHazyLoop l gt_acc hazy_acc =
      ((if l.any (fun e => e.isDir && e.name == "GT") then some "GT" else gt_acc),
       (if l.any (fun e => e.isDir && e.name == "hazy") then some "hazy" else hazy_acc)) := by
  induction l generalizing gt_acc hazy_acc with
  | nil => simp [findGtHazyLoop]
  | cons e rest ih =>
    by_cases hd : e.isDir <;> by_cases hg : e.name = "GT" <;> by_cases hh : e.name = "hazy" <;>
      simp_all [findGtHazyLoop, ih]

theorem find_gt_hazy_folders_eq (listing : List Entry) :
    find_gt_hazy_folders listing =
      ((if listing.any (fun e => e.isDir && e.name == "GT") then some "GT" else none),
       (if listing.any (fun e => e.isDir && e.name == "hazy") then some "hazy" else none)) :=
  findGtHazyLoop_eq listing none none

theorem any_eq_of_perm {α : Type} (f : α → Bool) {l₁ l₂ : List α} (h : l₁.Perm l₂) :
    l₁.any f = l₂.any f := by
  cases hb : l₂.any f
  · rw [List.any_eq_false] at hb ⊢
    intro x hx
    exact hb x (h.mem_iff.mp hx)
  · rw [List.any_eq_true] at hb ⊢
    obtain ⟨x, hx, hfx⟩ := hb
    exact ⟨x, h.mem_iff.mpr hx, hfx⟩

theorem pySorted_sorted (l : List String) : List.Sorted (· ≤ ·) (pySorted l) :=
  List.sorted_mergeSort' l

theorem pySorted_perm (l : List String) : (pySorted l).Perm l :=
  List.mergeSort_perm l _

theorem findImageLoop_fst (pathExists : String → Bool) (folder_path stem : String)
    (exts : List String) :
    (findImageLoop pathExists folder_path stem exts).1 =
      (exts.map (fun ext => pathJoin folder_path (stem ++ ext))).find? pathExists := by
  induction exts with
  | nil => rfl
  | cons e rest ih =>
    simp only [findImageLoop, List.map_cons, List.find?]
    by_cases h : pathExists (pathJoin folder_path (stem ++ e)) <;> simp [h, ih]

theorem findImageLoop_snd (pathExists : String → Bool) (folder_path stem : String)
    (exts : List String) :
    (findImageLoop pathExists folder_path stem exts).2 =
      attemptLog pathExists (exts.map (fun ext => pathJoin folder_path (stem ++ ext))) := by
  induction exts with
  | nil => rfl
  | cons e rest ih =>
    simp only [findImageLoop, List.map_cons]
    by_cases h : pathExists (pathJoin folder_path (stem ++ e))
    · simp [h, attemptLog]
    · simp only [h, if_neg, Bool.false_eq_true, not_false_eq_true, ite_false]
      simp [attemptLog, h, List.takeWhile_cons, ih]

theorem create_grid_eq (fs : Fs) (dataset_dir : String) (filenames : List String)
    (save_dir : Option String)
    (h : find_gt_hazy_folders fs.listing = (some "GT", some "hazy")) :
    create_grid fs dataset_dir filenames none save_dir =
      some (gridOf fs dataset_dir filenames save_dir) := by
  unfold create_grid gridOf
  rw [h]
  rfl

theorem create_grid_some_inv (fs : Fs) (dataset_dir : String) (filenames : List String)
    (custom_folders : Option (List String)) (save_dir : Option String) (out : GridOutput)
    (h : create_grid fs dataset_dir filenames custom_folders save_dir = some out) :
    find_gt_hazy_folders fs.listing = (some "GT", some "hazy") := by
  have hc := find_gt_hazy_folders_eq fs.listing
  by_cases c1 : fs.listing.any (fun e => e.isDir && e.name == "GT") <;>
    by_cases c2 : fs.listing.any (fun e => e.isDir && e.name == "hazy") <;>
      simp [c1, c2] at hc <;>
        simp [create_grid, hc] at h ⊢

theorem create_grid_some_eq (fs : Fs) (dataset_dir : String) (filenames : List String)
    (save_dir : Option String) (out : GridOutput)
    (h : create_grid fs dataset_dir filenames none save_dir = some out) :
    out = gridOf fs dataset_dir filenames save_dir := by
  have hg := create_grid_some_inv fs dataset_dir filenames none save_dir out h
  rw [create_grid_eq fs dataset_dir filenames save_dir hg] at h
  exact (Option.some_inj.mp h).symm

theorem slices_shift {α : Type} (l : List α) (k : Nat) :
    (List.range' 3 k 3).map (fun i => (l.drop i).take 3) =
      (List.range' 0 k 3).map (fun i => ((l.drop 3).drop i).take 3) := by
  apply List.ext_getElem
  · simp
  · intro j h1 h2
    simp only [List.getElem_map, List.getElem_range', List.drop_drop]
    congr 2
    omega

theorem flatten_slices {α : Type} :
    ∀ (k : Nat) (l : List α), l.length ≤ 3 * k →
      ((List.range' 0 k 3).map (fun i => (l.drop i).take 3)).flatten = l := by
  intro k
  induction k with
  | zero =>
    intro l h
    have : l = [] := List.eq_nil_of_length_eq_zero (by omega)
    subst this
    rfl
  | succ k ih =>
    intro l h
    rw [List.range'_succ]
    simp only [List.map_cons, List.flatten_cons, List.drop_zero]
    rw [slices_shift]
    rw [ih (l.drop 3) (by simp only [List.length_drop]; omega)]
    exact List.take_append_drop 3 l

/-! ### Claim theorems -/

/-- Claim C5: `find_image_file` builds each candidate as
`<identifier><suffix><extension>` under the folder path, with suffix `_GT`
exactly for the folder named `GT` and `_hazy` for every other folder, probes the
extensions `.png`, `.jpg`, `.jpeg` in order, logs a found / not-found line for
every candidate attempted, and returns the first existing candidate, or `none`
when no candidate exists. -/
theorem find_image_file_resolution (pathExists : String → Bool)
    (folder_path filename folder_name : String) :
    suffixFor folder_name = (if folder_name = "GT" then "_GT" else "_hazy") ∧
    (find_image_file pathExists folder_path filename folder_name).1 =
      (candidatePaths folder_path filename folder_name).find? pathExists ∧
    (find_image_file pathExists folder_path filename folder_name).2 =
      attemptLog pathExists (candidatePaths folder_path filename folder_name) ∧
    ((find_image_file pathExists folder_path filename folder_name).1 = none ↔
      ∀ p ∈ candidatePaths folder_path filename folder_name, pathExists p = false) := by
  refine ⟨rfl, findImageLoop_fst _ _ _ _, findImageLoop_snd _ _ _ _, ?_⟩
  rw [show (find_image_file pathExists folder_path filename folder_name).1 =
        (candidatePaths folder_path filename folder_name).find? pathExists from
      findImageLoop_fst _ _ _ _]
  simp [List.find?_eq_none]

/-- Claim C7: `load_image` either returns the decoded pixels with each BGR
triple converted to RGB order, or `none` when decoding fails, and nothing else:
it is total on its model and fails exactly when `cv2.imread` does. -/
theorem load_image_spec (imread : String → Option Img) (image_path : String) :
    (load_image imread image_path = none ↔ imread image_path = none) ∧
    load_image imread image_path =
      (imread image_path).map (fun img => img.map (fun px => (px.2.2, px.2.1, px.1))) := by
  cases h : imread image_path <;> simp [load_image, h, cvtColor_BGR2RGB]

/-- Claim C8: the probe order of the extension set is fixed: a `.png` candidate
wins over `.jpg` and `.jpeg`, and `.jpg` wins over `.jpeg`. -/
theorem find_image_file_ext_priority (pathExists : String → Bool)
    (folder_path filename folder_name : String) :
    (pathExists (pathJoin folder_path (filename ++ suffixFor folder_name ++ ".png")) = true →
      (find_image_file pathExists folder_path filename folder_name).1 =
        some (pathJoin folder_path (filename ++ suffixFor folder_name ++ ".png"))) ∧
    (pathExists (pathJoin folder_path (filename ++ suffixFor folder_name ++ ".png")) = false →
      pathExists (pathJoin folder_path (filename ++ suffixFor folder_name ++ ".jpg")) = true →
      (find_image_file pathExists folder_path filename folder_name).1 =
        some (pathJoin folder_path (filename ++ suffixFor folder_name ++ ".jpg"))) ∧
    (pathExists (pathJoin folder_path (filename ++ suffixFor folder_name ++ ".png")) = false →
      pathExists (pathJoin folder_path (filename ++ suffixFor folder_name ++ ".jpg")) = false →
      pathExists (pathJoin folder_path (filename ++ suffixFor folder_name ++ ".jpeg")) = true →
      (find_image_file pathExists folder_path filename folder_name).1 =
        some (pathJoin folder_path (filename ++ suffixFor folder_name ++ ".jpeg"))) := by
  refine ⟨fun h1 => ?_, fun h1 h2 => ?_, fun h1 h2 h3 => ?_⟩
  · simp [find_image_file, findImageLoop, extensions, h1]
  · simp [find_image_file, findImageLoop, extensions, h1, h2]
  · simp [find_image_file, findImageLoop, extensions, h1, h2, h3]

/-- Claim C6: `find_custom_folders` returns exactly the subdirectories whose
name matches the method-folder convention (ends with `_hazy` or starts with
`results_`), excluding `GT` and `hazy` by exact name, in lexicographic order;
it is total, and the result may be empty. -/
theorem find_custom_folders_spec (listing : List Entry) :
    find_custom_folders listing =
      pySorted ((listing.filter (fun e =>
        e.isDir && (e.name.endsWith "_hazy" || e.name.startsWith "results_")
          && e.name != "GT" && e.name != "hazy")).map Entry.name) ∧
    List.Sorted (· ≤ ·) (find_custom_folders listing) := by
  constructor
  · unfold find_custom_folders pySorted
    congr 2
    apply List.filter_congr
    intro e _
    by_cases h : e.name = "GT"
    · have h1 : ("GT".endsWith "_hazy" || "GT".startsWith "results_") = false := by decide
      rw [h, h1]
      simp
    · have h2 : (e.name != "GT") = true := by simpa using h
      rw [h2]
      simp
  · exact pySorted_sorted _

/-- Claim C4: `find_gt_hazy_folders` returns its two members independently —
`some "GT"` exactly when a subdirectory named `GT` is in the listing, else
`none`, and likewise for `hazy` — and `create_grid` produces no output (returns
`none` after printing the error) when either member is `none`. -/
theorem find_gt_hazy_independent_refusal (listing : List Entry) (fs : Fs)
    (dataset_dir : String) (filenames : List String)
    (custom_folders : Option (List String)) (save_dir : Option String) :
    ((find_gt_hazy_folders listing).1 =
        (if listing.any (fun e => e.isDir && e.name == "GT") then some "GT" else none) ∧
     (find_gt_hazy_folders listing).2 =
        (if listing.any (fun e => e.isDir && e.name == "hazy") then some "hazy" else none)) ∧
    (((find_gt_hazy_folders fs.listing).1 = none ∨ (find_gt_hazy_folders fs.listing).2 = none) →
      create_grid fs dataset_dir filenames custom_folders save_dir = none) := by
  constructor
  · rw [find_gt_hazy_folders_eq]
    exact ⟨rfl, rfl⟩
  · intro hmiss
    cases hout : create_grid fs dataset_dir filenames custom_folders save_dir with
    | none => rfl
    | some out =>
      have hgt := create_grid_some_inv fs dataset_dir filenames custom_folders save_dir out hout
      rw [hgt] at hmiss
      rcases hmiss with h | h <;> simp at h

/-- Claim C9: `find_custom_folders` and `find_gt_hazy_folders` are independent
of the enumeration order of the directory listing: permuted listings give
identical results. -/
theorem discovery_order_independent (l₁ l₂ : List Entry) (hp : l₁.Perm l₂) :
    find_custom_folders l₁ = find_custom_folders l₂ ∧
    find_gt_hazy_folders l₁ = find_gt_hazy_folders l₂ := by
  constructor
  · have hperm : (find_custom_folders l₁).Perm (find_custom_folders l₂) := by
      unfold find_custom_folders
      exact (pySorted_perm _).trans (((hp.filter _).map Entry.name).trans (pySorted_perm _).symm)
    exact List.eq_of_perm_of_sorted hperm (pySorted_sorted _) (pySorted_sorted _)
  · rw [find_gt_hazy_folders_eq l₁, find_gt_hazy_folders_eq l₂,
      any_eq_of_perm _ hp, any_eq_of_perm _ hp]

/-- Claim C1: with the GT and hazy folders present and a save directory given,
`create_grid` produces exactly `⌈N / 3⌉ = (N + 2) / 3` batches; the batches
partition the identifier list in input order, batch `i` (0-based) holds
`min 3 (N - 3 * i)` identifiers — so the sizes are `3, 3, …, remainder` — and
the batch with 1-based index `n` is saved as `grid_batch_<n>.png` under the
save directory. -/
theorem create_grid_batching (fs : Fs) (dataset_dir : String) (filenames : List String)
    (save_dir : String)
    (h : find_gt_hazy_folders fs.listing = (some "GT", some "hazy")) :
    ∃ out, create_grid fs dataset_dir filenames none (some save_dir) = some out ∧
      out.batches.length = (filenames.length + 2) / 3 ∧
      (out.batches.map Batch.filenames).flatten = filenames ∧
      (∀ i (hi : i < out.batches.length),
        ((out.batches.get ⟨i, hi⟩).filenames).length = min 3 (filenames.length - 3 * i)) ∧
      (∀ i (hi : i < out.batches.length),
        (out.batches.get ⟨i, hi⟩).savedPath =
          some (pathJoin save_dir ("grid_batch_" ++ toString (i + 1) ++ ".png"))) := by
  refine ⟨gridOf fs dataset_dir filenames (some save_dir),
    create_grid_eq fs dataset_dir filenames (some save_dir) h, ?_, ?_, ?_, ?_⟩
  · simp [gridOf]
  · simp only [gridOf, List.map_map]
    have hcomp : (Batch.filenames ∘ fun batch_idx =>
        renderBatch fs dataset_dir (["hazy"] ++ find_custom_folders fs.listing ++ ["GT"])
          ((filenames.drop batch_idx).take 3) batch_idx (some save_dir)) =
        (fun i => (filenames.drop i).take 3) := by
      funext i
      rfl
    rw [hcomp]
    exact flatten_slices _ filenames (by omega)
  · intro i hi
    simp only [gridOf, List.length_map, List.length_range'] at hi
    simp only [gridOf, List.get_eq_getElem, List.getElem_map, List.getElem_range', renderBatch]
    simp only [List.length_take, List.length_drop]
    omega
  · intro i hi
    simp only [gridOf, List.length_map, List.length_range'] at hi
    simp only [gridOf, List.get_eq_getElem, List.getElem_map, List.getElem_range', renderBatch,
      Option.map_some]
    have h3 : (0 + 3 * i) / 3 + 1 = i + 1 := by omega
    rw [h3]
    rfl

/-- Claim C10: for the empty identifier list (GT and hazy present, save
directory given), `create_grid` produces no batches, hence writes no output
files and calls `os.makedirs` for no batch (directory creation sits inside the
per-batch save step). -/
theorem create_grid_empty_filenames (fs : Fs) (dataset_dir save_dir : String)
    (h : find_gt_hazy_folders fs.listing = (some "GT", some "hazy")) :
    ∃ out, create_grid fs dataset_dir [] none (some save_dir) = some out ∧
      out.batches = [] ∧
      out.batches.map Batch.savedPath = [] ∧
      out.batches.map Batch.madeDir = [] := by
  refine ⟨gridOf fs dataset_dir [] (some save_dir), create_grid_eq _ _ _ _ h, ?_, ?_, ?_⟩ <;>
    simp [gridOf]

/-- Claim C2: every batch canvas has exactly `1 + |method folders| + 1` columns
and `len(batch)` rows; the columns are ordered hazy folder, then the method
folders in sorted order, then the GT folder; and the column labels are
`Hazy Input`, then `Method A`, `Method B`, … (the `i`-th method folder gets the
`i`-th uppercase letter, `chr(64 + i)`), then `Reference (GT)`. -/
theorem create_grid_canvas (fs : Fs) (dataset_dir : String) (filenames : List String)
    (save_dir : Option String) (out : GridOutput)
    (h : create_grid fs dataset_dir filenames none save_dir = some out) :
    out.folders = ["hazy"] ++ find_custom_folders fs.listing ++ ["GT"] ∧
    out.columnLabels = ["Hazy Input"] ++
      (List.range (find_custom_folders fs.listing).length).map
        (fun i => "Method " ++ String.singleton (Char.ofNat (65 + i))) ++
      ["Reference (GT)"] ∧
    ∀ b ∈ out.batches,
      b.numCols = 1 + (find_custom_folders fs.listing).length + 1 ∧
      b.numRows = b.filenames.length ∧
      b.cells.length = b.filenames.length ∧
      ∀ row ∈ b.cells, row.length = 1 + (find_custom_folders fs.listing).length + 1 := by
  have he := create_grid_some_eq fs dataset_dir filenames save_dir out h
  subst he
  refine ⟨rfl, ?_, ?_⟩
  · simp only [gridOf]
    congr 1
    congr 1
    rw [← List.enum_map_fst (find_custom_folders fs.listing), List.map_map]
    apply List.map_congr_left
    intro p _
    have h65 : 64 + (p.1 + 1) = 65 + p.1 := by omega
    simp only [Function.comp_apply, h65]
  · intro b hb
    simp only [gridOf, List.mem_map] at hb
    obtain ⟨bi, _, rfl⟩ := hb
    refine ⟨?_, rfl, ?_, ?_⟩
    · simp [renderBatch]
      omega
    · simp [renderBatch]
    · intro row hrow
      simp only [renderBatch, List.mem_map] at hrow
      obtain ⟨fn, _, rfl⟩ := hrow
      simp
      omega

/-- Claim C3: a cell whose file is absent under every probed extension, or whose
found file fails to decode, renders as the fixed `✗ Image not found`
placeholder; the batch containing it is still rendered from exactly these cells
and still saved, and every batch of the run is produced. -/
theorem create_grid_placeholder (fs : Fs) (dataset_dir : String) (filenames : List String)
    (save_dir : String) (out : GridOutput)
    (h : create_grid fs dataset_dir filenames none (some save_dir) = some out)
    (folder filename : String)
    (hfail :
      (∀ ext ∈ extensions,
        fs.pathExists (pathJoin (pathJoin dataset_dir folder)
          (filename ++ suffixFor folder ++ ext)) = false) ∨
      (∃ p, (find_image_file fs.pathExists (pathJoin dataset_dir folder) filename folder).1 =
          some p ∧ fs.imread p = none)) :
    renderCell fs dataset_dir folder filename = Cell.placeholder "✗ Image not found" ∧
    (∀ b ∈ out.batches,
      b.cells = b.filenames.map (fun fn =>
        out.folders.map (fun fd => renderCell fs dataset_dir fd fn)) ∧
      b.savedPath.isSome = true) ∧
    out.batches.length = (filenames.length + 2) / 3 := by
  have he := create_grid_some_eq fs dataset_dir filenames (some save_dir) out h
  subst he
  refine ⟨?_, ?_, ?_⟩
  · rcases hfail with hall | ⟨p, hp, hread⟩
    · have hnone :
          (find_image_file fs.pathExists (pathJoin dataset_dir folder) filename folder).1 =
            none := by
        simp only [find_image_file]
        rw [findImageLoop_fst]
        apply List.find?_eq_none.mpr
        intro p hp
        simp only [List.mem_map] at hp
        obtain ⟨ext, hext, rfl⟩ := hp
        simpa using hall ext hext
      simp [renderCell, hnone]
    · simp [renderCell, hp, load_image, hread]
  · intro b hb
    simp only [gridOf, List.mem_map] at hb
    obtain ⟨bi, _, rfl⟩ := hb
    exact ⟨rfl, rfl⟩
  · simp [gridOf]

/-! ### Concrete fixtures and witnesses -/

/-- A dataset directory with the `GT` and `hazy` folders, nothing found on disk. -/
def fsGH : Fs :=
  { listing := [{ name := "GT", isDir := true }, { name := "hazy", isDir := true }]
    pathExists := fun _ => false
    imread := fun _ => none }

/-- A dataset directory with `GT`, `hazy` and one method folder `results_1`. -/
def fsGHR : Fs :=
  { listing := [{ name := "GT", isDir := true }, { name := "hazy", isDir := true },
      { name := "results_1", isDir := true }]
    pathExists := fun _ => false
    imread := fun _ => none }

/-- An empty dataset directory: both base folders are missing. -/
def fsNone : Fs :=
  { listing := []
    pathExists := fun _ => false
    imread := fun _ => none }

/-- Witness for `create_grid_batching`: four identifiers over `fsGH`. -/
theorem create_grid_batching_witness :
    find_gt_hazy_folders fsGH.listing = (some "GT", some "hazy") ∧
    (∃ out, create_grid fsGH "d" ["01", "02", "04", "06"] none (some "o") = some out ∧
      out.batches.length = ((["01", "02", "04", "06"] : List String).length + 2) / 3 ∧
      (out.batches.map Batch.filenames).flatten = ["01", "02", "04", "06"] ∧
      (∀ i (hi : i < out.batches.length),
        ((out.batches.get ⟨i, hi⟩).filenames).length =
          min 3 ((["01", "02", "04", "06"] : List String).length - 3 * i)) ∧
      (∀ i (hi : i < out.batches.length),
        (out.batches.get ⟨i, hi⟩).savedPath =
          some (pathJoin "o" ("grid_batch_" ++ toString (i + 1) ++ ".png")))) :=
  ⟨rfl, create_grid_batching fsGH "d" ["01", "02", "04", "06"] "o" rfl⟩

/-- Witness for `create_grid_empty_filenames`: the empty identifier list over `fsGH`. -/
theorem create_grid_empty_filenames_witness :
    find_gt_hazy_folders fsGH.listing = (some "GT", some "hazy") ∧
    (∃ out, create_grid fsGH "d" [] none (some "o") = some out ∧
      out.batches = [] ∧
      out.batches.map Batch.savedPath = [] ∧
      out.batches.map Batch.madeDir = []) :=
  ⟨rfl, create_grid_empty_filenames fsGH "d" "o" rfl⟩

/-- Witness for `create_grid_canvas`: one identifier over `fsGHR`. -/
theorem create_grid_canvas_witness :
    create_grid fsGHR "d" ["01"] none none = some (gridOf fsGHR "d" ["01"] none) ∧
    ((gridOf fsGHR "d" ["01"] none).folders =
        ["hazy"] ++ find_custom_folders fsGHR.listing ++ ["GT"] ∧
     (gridOf fsGHR "d" ["01"] none).columnLabels = ["Hazy Input"] ++
        (List.range (find_custom_folders fsGHR.listing).length).map
          (fun i => "Method " ++ String.singleton (Char.ofNat (65 + i))) ++
        ["Reference (GT)"] ∧
     ∀ b ∈ (gridOf fsGHR "d" ["01"] none).batches,
       b.numCols = 1 + (find_custom_folders fsGHR.listing).length + 1 ∧
       b.numRows = b.filenames.length ∧
       b.cells.length = b.filenames.length ∧
       ∀ row ∈ b.cells, row.length = 1 + (find_custom_folders fsGHR.listing).length + 1) :=
  ⟨create_grid_eq fsGHR "d" ["01"] none rfl,
   create_grid_canvas fsGHR "d" ["01"] none (gridOf fsGHR "d" ["01"] none)
     (create_grid_eq fsGHR "d" ["01"] none rfl)⟩

/-- Witness for `create_grid_placeholder`: over `fsGH` nothing exists on disk,
so the `hazy` cell of identifier `01` is the placeholder and the batch is still
saved. -/
theorem create_grid_placeholder_witness :
    create_grid fsGH "d" ["01"] none (some "o") = some (gridOf fsGH "d" ["01"] (some "o")) ∧
    (∀ ext ∈ extensions,
      fsGH.pathExists (pathJoin (pathJoin "d" "hazy") ("01" ++ suffixFor "hazy" ++ ext)) =
        false) ∧
    (renderCell fsGH "d" "hazy" "01" = Cell.placeholder "✗ Image not found" ∧
     (∀ b ∈ (gridOf fsGH "d" ["01"] (some "o")).batches,
       b.cells = b.filenames.map (fun fn =>
         (gridOf fsGH "d" ["01"] (some "o")).folders.map
           (fun fd => renderCell fsGH "d" fd fn)) ∧
       b.savedPath.isSome = true) ∧
     (gridOf fsGH "d" ["01"] (some "o")).batches.length =
       ((["01"] : List String).length + 2) / 3) :=
  ⟨create_grid_eq fsGH "d" ["01"] (some "o") rfl,
   fun _ _ => rfl,
   create_grid_placeholder fsGH "d" ["01"] "o" (gridOf fsGH "d" ["01"] (some "o"))
     (create_grid_eq fsGH "d" ["01"] (some "o") rfl) "hazy" "01"
     (Or.inl (fun _ _ => rfl))⟩

/-- Witness for `find_gt_hazy_independent_refusal`: the empty listing misses both
folders and composition yields no output. -/
theorem find_gt_hazy_independent_refusal_witness :
    (((find_gt_hazy_folders ([] : List Entry)).1 =
        (if ([] : List Entry).any (fun e => e.isDir && e.name == "GT") then some "GT"
          else none) ∧
      (find_gt_hazy_folders ([] : List Entry)).2 =
        (if ([] : List Entry).any (fun e => e.isDir && e.name == "hazy") then some "hazy"
          else none)) ∧
     (((find_gt_hazy_folders fsNone.listing).1 = none ∨
        (find_gt_hazy_folders fsNone.listing).2 = none) →
       create_grid fsNone "d" ["01"] none none = none)) ∧
    create_grid fsNone "d" ["01"] none none = none :=
  ⟨find_gt_hazy_independent_refusal [] fsNone "d" ["01"] none none,
   (find_gt_hazy_independent_refusal [] fsNone "d" ["01"] none none).2 (Or.inl rfl)⟩

/-- Witness for `find_image_file_ext_priority`: the `.png` candidate is absent
while both `.jpg` and `.jpeg` exist, so the `.jpg` candidate wins. -/
theorem find_image_file_ext_priority_witness :
    (fun p => p != "ds/results_1/01_hazy.png")
        (pathJoin "ds/results_1" ("01" ++ suffixFor "results_1" ++ ".png")) = false ∧
    (fun p => p != "ds/results_1/01_hazy.png")
        (pathJoin "ds/results_1" ("01" ++ suffixFor "results_1" ++ ".jpg")) = true ∧
    (find_image_file (fun p => p != "ds/results_1/01_hazy.png")
        "ds/results_1" "01" "results_1").1 =
      some (pathJoin "ds/results_1" ("01" ++ suffixFor "results_1" ++ ".jpg")) :=
  ⟨rfl, rfl,
   (find_image_file_ext_priority (fun p => p != "ds/results_1/01_hazy.png")
      "ds/results_1" "01" "results_1").2.1 rfl rfl⟩

/-- Witness for `discovery_order_independent`: two enumeration orders of the
same three subdirectories. -/
theorem discovery_order_independent_witness :
    (([{ name := "GT", isDir := true }, { name := "hazy", isDir := true },
        { name := "results_1", isDir := true }] : List Entry).Perm
      ([{ name := "results_1", isDir := true }, { name := "GT", isDir := true },
        { name := "hazy", isDir := true }] : List Entry)) ∧
    (find_custom_folders [{ name := "GT", isDir := true }, { name := "hazy", isDir := true },
        { name := "results_1", isDir := true }] =
      find_custom_folders [{ name := "results_1", isDir := true },
        { name := "GT", isDir := true }, { name := "hazy", isDir := true }] ∧
     find_gt_hazy_folders [{ name := "GT", isDir := true }, { name := "hazy", isDir := true },
        { name := "results_1", isDir := true }] =
      find_gt_hazy_folders [{ name := "results_1", isDir := true },
        { name := "GT", isDir := true }, { name := "hazy", isDir := true }]) :=
  ⟨by decide,
   discovery_order_independent _ _ (by decide)⟩
